import Mathlib

/-!
# Mail-Rulez: shallow embedding and verification of spec claims

This file embeds, in Lean, the parts of the Mail-Rulez code base that the
frozen claims C1..C10 are about, and settles each claim against the
embedding.  Every definition is translated from the Python source
(`src/retention/*.py`, `src/src/*.py`, `src/services/*.py`); file I/O is
modelled by explicit values (a log file is a list of lines, a list file is
its character content), IMAP sessions by explicit command traces, and
Python `datetime` arithmetic by integer seconds.
-/

namespace MailRulez

/-! ## Python string primitives

Helpers mirroring the Python string operations the source uses.  Strings
are handled as `List Char` so that everything reduces well in the kernel.
-/

/-- Python `str.lower()` restricted to ASCII, which is all the code compares. -/
def pyLower (s : List Char) : List Char :=
  s.map Char.toLower

/-- Characters Python `str.strip()` removes by default. -/
def isPyWhitespace (c : Char) : Bool :=
  c == ' ' || c == '\t' || c == '\n' || c == '\r'

/-- Python `str.strip()` (default whitespace). -/
def pyStrip (s : List Char) : List Char :=
  (s.dropWhile isPyWhitespace).reverse.dropWhile isPyWhitespace |>.reverse

/-- Python `str.split(sep)` for a single-character separator.
`"a\nb\n".split("\n") = ["a", "b", ""]`. -/
def pySplitChar (sep : Char) : List Char → List (List Char)
  | [] => [[]]
  | c :: rest =>
    if c = sep then
      [] :: pySplitChar sep rest
    else
      match pySplitChar sep rest with
      | [] => [[c]]
      | h :: t => (c :: h) :: t

/-- Membership test Python's `x in list_of_str` performs (exact equality). -/
def pyListContains (x : List Char) (l : List (List Char)) : Bool :=
  l.contains x

/-! ## §C8 — EmailProcessor.should_transition_to_maintenance

From `src/services/email_processor.py`.  `ServiceStats` keeps the fields the
predicate reads; datetimes are integer seconds since an arbitrary epoch, and
`timedelta.days` is floor division by 86400 (`Int.fdiv`), exactly Python's
normalisation of a `timedelta`.
-/

/-- The `ProcessingMode` enum from `email_processor.py` (values `"startup"`,
`"maintenance"`). -/
inductive ProcessingMode where
  | startup
  | maintenance
deriving DecidableEq, Repr

/-- The `.value` of a `ProcessingMode` member. -/
def ProcessingMode.value : ProcessingMode → String
  | .startup => "startup"
  | .maintenance => "maintenance"

/-- The `ServiceState` enum from `email_processor.py`. -/
inductive ServiceState where
  | stopped
  | starting
  | runningStartup
  | runningMaintenance
  | stopping
  | error
deriving DecidableEq, Repr

/-- The `.value` of a `ServiceState` member (the lowercase strings the enum
carries). -/
def ServiceState.value : ServiceState → String
  | .stopped => "stopped"
  | .starting => "starting"
  | .runningStartup => "running_startup"
  | .runningMaintenance => "running_maintenance"
  | .stopping => "stopping"
  | .error => "error"

/-- The slice of `EmailProcessor` state read by
`should_transition_to_maintenance` and `get_stats_snapshot`.
`modeStartTime` is `stats.mode_start_time` (`none` = Python `None`),
in seconds. -/
structure ProcessorState where
  mode : ProcessingMode
  state : ServiceState
  emailsProcessed : Nat
  emailsPending : Nat
  errorCount : Nat
  consecutiveErrors : Nat
  modeStartTime : Option Int
  avgProcessingTime : ℚ
deriving Repr

/-- Python `timedelta(seconds=secs).days`: floor division by 86400. -/
def timedeltaDays (secs : Int) : Int :=
  Int.fdiv secs 86400

/-- The `EmailProcessor.should_transition_to_maintenance` (`email_processor.py`
lines 722-741).  `now` is `datetime.now()` in seconds.  The Python `and`
chain short-circuits on a `None` `mode_start_time` (a falsy value), which the
`Option` match reproduces. -/
def shouldTransitionToMaintenance (p : ProcessorState) (now : Int) : Bool :=
  if p.mode ≠ ProcessingMode.startup then
    false
  else
    (p.emailsPending < 50 : Bool) &&
    (match p.modeStartTime with
     | none => false
     | some mst =>
       (timedeltaDays (now - mst) ≥ 14 : Bool) &&
       (p.consecutiveErrors == 0) &&
       ((p.errorCount : ℚ) / (max 1 p.emailsProcessed : ℚ) < 1/20 : Bool))

/-! ## §C10 — snapshots and aggregate stats

`EmailProcessor.get_stats_snapshot` (`email_processor.py` lines 269-290)
copies the stats under the lock and adds `state`/`mode` as the enum
`.value` strings.  `TaskManager.get_aggregate_stats`
(`task_manager.py` lines 267-341) sums the snapshots and counts states and
modes by comparing against the uppercase *names*.
-/

/-- The dictionary `get_stats_snapshot` returns (fields the aggregator
reads). -/
structure StatsSnapshot where
  emailsProcessed : Nat
  emailsPending : Nat
  errorCount : Nat
  avgProcessingTime : ℚ
  state : String
  mode : String
deriving Repr

/-- The `EmailProcessor.get_stats_snapshot`: stats copy plus
`self.state.value` and `self.mode.value`. -/
def getStatsSnapshot (p : ProcessorState) : StatsSnapshot :=
  { emailsProcessed := p.emailsProcessed
    emailsPending := p.emailsPending
    errorCount := p.errorCount
    avgProcessingTime := p.avgProcessingTime
    state := p.state.value
    mode := p.mode.value }

/-- The aggregate dictionary `get_aggregate_stats` returns (the count
fields the claim is about, plus the totals). -/
structure AggregateStats where
  totalAccounts : Nat
  runningAccounts : Nat
  startupModeAccounts : Nat
  maintenanceModeAccounts : Nat
  totalEmailsProcessed : Nat
  totalEmailsPending : Nat
  totalErrors : Nat
deriving Repr

/-- The per-snapshot loop of `get_aggregate_stats`: sum the three totals and
count `state in ['RUNNING_STARTUP', 'RUNNING_MAINTENANCE']` and
`mode == 'STARTUP'` / `else` across the snapshots.  (The Python loop
accumulates these six counters left to right; addition of naturals being
commutative, the recursion below computes the same six sums.)
Components: processed, pending, errors, running, startup, maintenance. -/
def aggregateLoop : List StatsSnapshot → Nat × Nat × Nat × Nat × Nat × Nat
  | [] => (0, 0, 0, 0, 0, 0)
  | s :: rest =>
    let r := aggregateLoop rest
    (s.emailsProcessed + r.1,
     s.emailsPending + r.2.1,
     s.errorCount + r.2.2.1,
     (if s.state = "RUNNING_STARTUP" ∨ s.state = "RUNNING_MAINTENANCE" then 1 else 0) + r.2.2.2.1,
     (if s.mode = "STARTUP" then 1 else 0) + r.2.2.2.2.1,
     (if s.mode = "STARTUP" then 0 else 1) + r.2.2.2.2.2)

/-- The `TaskManager.get_aggregate_stats`.  `initialized` is
`self._initialized`; before initialization the method returns the minimal
zeros dictionary with only the account count filled in.  `snapshots` is the
list of successful `get_stats_snapshot` results; `totalAccounts` the size
of the processor registry. -/
def getAggregateStats (initialized : Bool) (totalAccounts : Nat)
    (snapshots : List StatsSnapshot) : AggregateStats :=
  if !initialized then
    { totalAccounts := totalAccounts
      runningAccounts := 0
      startupModeAccounts := 0
      maintenanceModeAccounts := 0
      totalEmailsProcessed := 0
      totalEmailsPending := 0
      totalErrors := 0 }
  else
    let r := aggregateLoop snapshots
    { totalAccounts := totalAccounts
      runningAccounts := r.2.2.2.1
      startupModeAccounts := r.2.2.2.2.1
      maintenanceModeAccounts := r.2.2.2.2.2
      totalEmailsProcessed := r.1
      totalEmailsPending := r.2.1
      totalErrors := r.2.2.1 }

/-! ## Python date/datetime values

`fetch_class` (`src/src/functions.py`) converts every fetched message's
`date` to a `datetime.date` (`item.date = item.date.date()`), while
`RetentionPolicyManager.find_emails_older_than` builds its cutoff as a
`datetime.datetime` (`datetime.now() - timedelta(days=days)`).  Python
refuses to order a `date` against a `datetime`: the comparison raises
`TypeError`.  The embedding keeps the two kinds as constructors and makes
`<` fallible, exactly as in CPython.
-/

/-- A Python `datetime.date` (day number) or `datetime.datetime`
(seconds). -/
inductive PyDateTime where
  | date (day : Int)
  | datetime (secs : Int)
deriving DecidableEq, Repr

/-- Python `<` between date/datetime values: defined within one kind,
`TypeError` across kinds. -/
def pyDateTimeLt : PyDateTime → PyDateTime → Except String Bool
  | .date a, .date b => .ok (a < b)
  | .datetime a, .datetime b => .ok (a < b)
  | .date _, .datetime _ => .error "TypeError: cannot compare datetime.datetime to datetime.date"
  | .datetime _, .date _ => .error "TypeError: cannot compare datetime.date to datetime.datetime"

/-- A message as `fetch_class` returns it: uid plus the `date`-converted
message date. -/
structure Mail where
  uid : String
  date : PyDateTime
deriving DecidableEq, Repr

/-- The `fetch_class` (`functions.py` lines 40-54) applied to raw headers
`(uid, message datetime in seconds)`: every returned item carries
`item.date.date()`, the day number of the message datetime. -/
def fetchClass (raw : List (String × Int)) : List Mail :=
  raw.map (fun p => { uid := p.1, date := PyDateTime.date (Int.fdiv p.2 86400) })

/-! ## §C2 — RetentionPolicyManager.execute_retention_stage_1

From `src/retention/manager.py` lines 316-483.  The mailbox is modelled by
the list of fetched messages; the trash move succeeds and reports
`len(message_uids)` as `TrashManager.move_to_trash` does on success.
-/

/-- The `for email in emails: if email_date < cutoff_date` loop inside
`find_emails_older_than`; the first `TypeError` aborts it. -/
def findOldLoop (cutoff : PyDateTime) : List Mail → Except String (List String)
  | [] => .ok []
  | m :: rest => do
    let b ← pyDateTimeLt m.date cutoff
    let uids ← findOldLoop cutoff rest
    pure (if b then m.uid :: uids else uids)

/-- The `RetentionPolicyManager.find_emails_older_than` (`manager.py` lines
316-350): fetch, compare each message date against
`datetime.now() - timedelta(days=days)`, and on any exception fall back to
the empty list (`except ... return []`). -/
def findEmailsOlderThan (mails : List Mail) (nowSecs days : Int) : List String :=
  let cutoffDate := PyDateTime.datetime (nowSecs - days * 86400)
  match findOldLoop cutoffDate mails with
  | .ok uids => uids
  | .error _ => []

/-- The slice of `RetentionResult` stage 1 fills in, plus the UID list
handed to `TrashManager.move_to_trash`. -/
structure Stage1Result where
  success : Bool
  emailsProcessed : Nat
  emailsAffected : Nat
  movedUids : List String
deriving DecidableEq, Repr

/-- The `RetentionPolicyManager.execute_retention_stage_1` (`manager.py` lines
352-483) with a connected mailbox holding `mails`: select old UIDs, return
early if none, cap at `max_emails_per_operation`, then (not dry-run) move
and report `move_to_trash`'s count, which on success is the length of the
UID list passed in. -/
def executeRetentionStage1 (mails : List Mail) (retentionDays : Int)
    (maxEmails : Nat) (nowSecs : Int) (dryRun : Bool) : Stage1Result :=
  let oldUids := findEmailsOlderThan mails nowSecs retentionDays
  if oldUids.isEmpty then
    { success := true, emailsProcessed := oldUids.length, emailsAffected := 0,
      movedUids := [] }
  else
    let capped := if oldUids.length > maxEmails then oldUids.take maxEmails else oldUids
    if dryRun then
      { success := true, emailsProcessed := oldUids.length,
        emailsAffected := capped.length, movedUids := [] }
    else
      { success := true, emailsProcessed := oldUids.length,
        emailsAffected := capped.length, movedUids := capped }

/-- Modelled from the spec: §4.7's stage-1 selection, "selects UIDs whose
date is older than `now − policy.retention_days`", stated over the raw
headers at day resolution.  This is the candidate set the claim counts;
compare with what `findEmailsOlderThan` actually computes. -/
def specSelectedUids (raw : List (String × Int)) (nowSecs days : Int) : List String :=
  ((raw.map (fun p => (p.1, Int.fdiv p.2 86400))).filter
    (fun p => p.2 < Int.fdiv (nowSecs - days * 86400) 86400)).map (·.1)

/-! ## §C4 / §C9 — Gmail-aware move and the trash move

From `src/src/functions.py` (`is_gmail_account`, `remove_gmail_label`,
`gmail_aware_move`) and `src/retention/trash_manager.py`
(`get_trash_folder`, `move_to_trash`).  An IMAP session is modelled by the
trace of commands issued; `outcome` stands for whether the server accepts
the `mailbox.move` call (`.err msg` = the call raises with message `msg`).
-/

/-- Decidable equality for `Except` results, so concrete runs of the
fallible operations can be checked by `decide`. -/
instance exceptDecEq {ε α : Type} [DecidableEq ε] [DecidableEq α] :
    DecidableEq (Except ε α) := fun x y =>
  match x, y with
  | .ok a, .ok b =>
    if h : a = b then .isTrue (by rw [h]) else .isFalse (fun hh => by cases hh; exact h rfl)
  | .error a, .error b =>
    if h : a = b then .isTrue (by rw [h]) else .isFalse (fun hh => by cases hh; exact h rfl)
  | .ok _, .error _ => .isFalse (fun hh => by cases hh)
  | .error _, .ok _ => .isFalse (fun hh => by cases hh)

/-- IMAP commands the move primitives issue. -/
inductive ImapCmd where
  | move (uids : List String) (dest : String)
  | storeRemoveGmailLabel (uid : String) (label : String)
deriving DecidableEq, Repr

/-- Whether the underlying `mailbox.move` call succeeds or raises. -/
inductive MoveOutcome where
  | ok
  | err (msg : String)
deriving DecidableEq, Repr

/-- The dictionary `gmail_aware_move` returns: keys `moved`,
`label_removed` (note: singular in the source) and `errors`. -/
structure GmailMoveResult where
  moved : Nat
  labelRemoved : Nat
  errors : List String
deriving DecidableEq, Repr

/-- The `is_gmail_account` (`functions.py` lines 225-237): lowercase the
address, take the part after the last `@` (empty when there is no `@`),
and test membership in the two Gmail domains. -/
def isGmailAccount (accountEmail : String) : Bool :=
  if accountEmail = "" then false
  else
    let em := pyLower accountEmail.toList
    let domain := if em.contains '@' then (pySplitChar '@' em).getLastD [] else []
    domain = "gmail.com".toList || domain = "googlemail.com".toList

/-- The `remove_gmail_label` (`functions.py` lines 240-278): strip a leading
`INBOX.` from the label, then issue one
`UID STORE <uid> -X-GM-LABELS "<label>"` per uid.  The modelled server
answers OK to each store, so `success_count` is the number of uids and the
error list stays empty. -/
def removeGmailLabel (uids : List String) (labelName : String) :
    (Nat × List String) × List ImapCmd :=
  if uids.isEmpty then ((0, []), [])
  else
    let gmailLabel :=
      if labelName.startsWith "INBOX." then labelName.replace "INBOX." "" else labelName
    ((uids.length, []), uids.map (fun uid => ImapCmd.storeRemoveGmailLabel uid gmailLabel))

/-- The `gmail_aware_move` (`functions.py` lines 281-322): standard move first;
if it raises, the exception is caught and recorded in `errors` with
`moved = 0`.  On success, the source label is removed only when a source
folder was given and it is neither `'INBOX'` nor `'Inbox'` (nor the falsy
empty string). -/
def gmailAwareMove (outcome : MoveOutcome) (uids : List String) (dest : String)
    (source : Option String) : GmailMoveResult × List ImapCmd :=
  if uids.isEmpty then ({ moved := 0, labelRemoved := 0, errors := [] }, [])
  else
    match outcome with
    | .err msg =>
      ({ moved := 0, labelRemoved := 0,
         errors := ["Gmail move operation failed: " ++ msg] }, [])
    | .ok =>
      match source with
      | some s =>
        if s ≠ "" ∧ s ≠ "INBOX" ∧ s ≠ "Inbox" then
          let r := removeGmailLabel uids s
          ({ moved := uids.length, labelRemoved := r.1.1, errors := r.1.2 },
           ImapCmd.move uids dest :: r.2)
        else
          ({ moved := uids.length, labelRemoved := 0, errors := [] },
           [ImapCmd.move uids dest])
      | none =>
        ({ moved := uids.length, labelRemoved := 0, errors := [] },
         [ImapCmd.move uids dest])

/-- The caller-side dispatch around the move primitives, as in
`process_inbox` (`process_inbox.py` lines 155-171) and `process_folder`:
Gmail accounts route through `gmail_aware_move` with the source folder,
anything else calls `mailbox.move` directly (whose exception, if any,
propagates). -/
def inboxMoveDispatch (outcome : MoveOutcome) (accountEmail : String)
    (uids : List String) (dest : String) (source : String) :
    Except String (Option GmailMoveResult × List ImapCmd) :=
  if isGmailAccount accountEmail then
    let r := gmailAwareMove outcome uids dest (some source)
    .ok (some r.1, r.2)
  else
    match outcome with
    | .ok => .ok (none, [ImapCmd.move uids dest])
    | .err msg => .error msg

/-- The `TrashManager._detect_email_provider` (`trash_manager.py` lines
83-96). -/
def detectEmailProvider (email : String) : String :=
  let domain := (pySplitChar '@' (pyLower email.toList)).getLastD []
  if domain = "gmail.com".toList ∨ domain = "googlemail.com".toList then "gmail"
  else if domain = "outlook.com".toList ∨ domain = "hotmail.com".toList ∨
      domain = "live.com".toList then "outlook"
  else if domain = "yahoo.com".toList ∨ domain = "yahoo.co.uk".toList then "yahoo"
  else if domain = "icloud.com".toList ∨ domain = "me.com".toList ∨
      domain = "mac.com".toList then "icloud"
  else "default"

/-- The `TrashManager.trash_patterns` (`trash_manager.py` lines 26-32), with
`dict.get(provider, patterns['default'])` folded in. -/
def trashPatterns : String → List String
  | "gmail" => ["[Gmail]/Trash", "[Google Mail]/Trash"]
  | "outlook" => ["Deleted Items", "INBOX.Deleted Items"]
  | "yahoo" => ["Trash", "INBOX.Trash"]
  | "icloud" => ["INBOX.Trash"]
  | _ => ["INBOX.Trash", "Trash", "INBOX.Deleted Items"]

/-- The `TrashManager.get_trash_folder` (`trash_manager.py` lines 34-81):
explicit account configuration wins; otherwise intersect provider patterns
(then default patterns) with the listed server folders when a session is
available; fall back to the first provider pattern. -/
def getTrashFolder (accountTrash : Option String) (email : String)
    (availableFolders : Option (List String)) : String :=
  let patterns := trashPatterns (detectEmailProvider email)
  let detected :=
    match availableFolders with
    | some folders =>
      match patterns.find? (fun p => folders.contains p) with
      | some p => some p
      | none =>
        match (trashPatterns "default").find? (fun p => folders.contains p) with
        | some p => some p
        | none => none
    | none => none
  match accountTrash with
  | some t =>
    if t ≠ "" then t
    else (detected.getD (patterns.headD "INBOX.Trash"))
  | none => detected.getD (patterns.headD "INBOX.Trash")

/-- Python truthiness of the dictionary `gmail_aware_move` returns: a dict
is truthy iff it is non-empty, and this dict always carries its three keys,
so `move_to_trash`'s `moved_count = len(message_uids) if result else 0`
always takes the first branch. -/
def gmailMoveResultTruthy (_ : GmailMoveResult) : Bool :=
  true

/-- An entry written by `RetentionAuditLogger.log_trash_operation` as
`TrashManager.move_to_trash` fills it in. -/
structure TrashAudit where
  operation : String
  accountEmail : String
  folder : String
  messageCount : Nat
  success : Bool
  errorMessage : Option String
deriving DecidableEq, Repr

/-- The `TrashManager.move_to_trash` (`trash_manager.py` lines 98-177).
`.error` is the raised `TrashOperationError`, carrying the failure audit
entry it logs first; `.ok` carries the returned count and the success audit
entry (`none` on the empty-uids early return, which logs nothing). -/
def moveToTrash (email : String) (accountTrash : Option String)
    (availableFolders : Option (List String)) (uids : List String)
    (sourceFolder : String) (outcome : MoveOutcome) :
    Except TrashAudit (Nat × Option TrashAudit) :=
  if uids.isEmpty then .ok (0, none)
  else
    let _trashFolder := getTrashFolder accountTrash email availableFolders
    if isGmailAccount email then
      let result := (gmailAwareMove outcome uids _trashFolder (some sourceFolder)).1
      let movedCount := if gmailMoveResultTruthy result then uids.length else 0
      .ok (movedCount,
        some { operation := "move_to_trash", accountEmail := email,
               folder := sourceFolder, messageCount := uids.length,
               success := true, errorMessage := none })
    else
      match outcome with
      | .ok =>
        .ok (uids.length,
          some { operation := "move_to_trash", accountEmail := email,
                 folder := sourceFolder, messageCount := uids.length,
                 success := true, errorMessage := none })
      | .err msg =>
        .error { operation := "move_to_trash", accountEmail := email,
                 folder := sourceFolder, messageCount := uids.length,
                 success := false,
                 errorMessage := some ("Failed to move emails to trash: " ++ msg) }

/-! ## §C3 — retention policy validation and update

From `src/retention/models.py` (`RetentionPolicy.__post_init__`) and
`src/retention/manager.py` (`update_policy`,
`create_folder_policy`, `create_rule_policy`).
-/

/-- The `RetentionPolicy` dataclass fields validation touches
(`models.py` lines 22-39). -/
structure RetentionPolicy where
  id : String
  name : String
  description : String
  retentionDays : Int
  trashRetentionDays : Int
  folderPattern : Option String
  ruleId : Option String
  skipTrash : Bool
  active : Bool
deriving DecidableEq, Repr

/-- Python truthiness of an optional string field (`None` and `""` are
falsy). -/
def optStrTruthy : Option String → Bool
  | none => false
  | some s => s ≠ ""

/-- The `RetentionPolicy.__post_init__` (`models.py` lines 41-50): the
validation every construction runs; errors are the raised `ValueError`s. -/
def postInitValidate (p : RetentionPolicy) : Except String RetentionPolicy :=
  if p.retentionDays < 1 then .error "Retention days must be at least 1"
  else if p.trashRetentionDays < 1 then .error "Trash retention days must be at least 1"
  else if !optStrTruthy p.folderPattern && !optStrTruthy p.ruleId then
    .error "Policy must specify either folder_pattern or rule_id"
  else if optStrTruthy p.folderPattern && optStrTruthy p.ruleId then
    .error "Policy cannot specify both folder_pattern and rule_id"
  else .ok p

/-- The exclusivity invariant the spec states: exactly one of
`folder_pattern` / `rule_id` is set. -/
def policyExclusive (p : RetentionPolicy) : Bool :=
  xor (optStrTruthy p.folderPattern) (optStrTruthy p.ruleId)

/-- One `key=value` item of the `**updates` keyword arguments
`update_policy` accepts. -/
inductive PolicyFieldUpdate where
  | setName (v : String)
  | setDescription (v : String)
  | setRetentionDays (v : Int)
  | setTrashRetentionDays (v : Int)
  | setFolderPattern (v : Option String)
  | setRuleId (v : Option String)
  | setSkipTrash (v : Bool)
  | setActive (v : Bool)
deriving DecidableEq, Repr

/-- The `setattr(policy, key, value)` of one update. -/
def applyPolicyUpdate (p : RetentionPolicy) : PolicyFieldUpdate → RetentionPolicy
  | .setName v => { p with name := v }
  | .setDescription v => { p with description := v }
  | .setRetentionDays v => { p with retentionDays := v }
  | .setTrashRetentionDays v => { p with trashRetentionDays := v }
  | .setFolderPattern v => { p with folderPattern := v }
  | .setRuleId v => { p with ruleId := v }
  | .setSkipTrash v => { p with skipTrash := v }
  | .setActive v => { p with active := v }

/-- The `RetentionPolicyManager.update_policy` (`manager.py` lines 238-264):
apply each update with `setattr` — `__post_init__` is not re-run — then
re-check only the minimum retention period before saving. -/
def updatePolicy (p : RetentionPolicy) (updates : List PolicyFieldUpdate)
    (minRetentionDays : Int) : Except String RetentionPolicy :=
  let p2 := updates.foldl applyPolicyUpdate p
  if p2.retentionDays < minRetentionDays then .error "InvalidRetentionPeriodError"
  else .ok p2

/-- The `RetentionPolicyManager.create_folder_policy` (`manager.py` lines
172-203): min-period check, then construction through the validating
dataclass constructor. -/
def createFolderPolicy (policyId name description folderPattern : String)
    (retentionDays trashRetentionDays minRetentionDays : Int) :
    Except String RetentionPolicy :=
  if retentionDays < minRetentionDays then .error "InvalidRetentionPeriodError"
  else postInitValidate
    { id := policyId, name := name, description := description,
      retentionDays := retentionDays, trashRetentionDays := trashRetentionDays,
      folderPattern := some folderPattern, ruleId := none,
      skipTrash := false, active := true }

/-- The `RetentionPolicyManager.create_rule_policy` (`manager.py` lines
205-236). -/
def createRulePolicy (policyId name description ruleId : String)
    (retentionDays trashRetentionDays minRetentionDays : Int) :
    Except String RetentionPolicy :=
  if retentionDays < minRetentionDays then .error "InvalidRetentionPeriodError"
  else postInitValidate
    { id := policyId, name := name, description := description,
      retentionDays := retentionDays, trashRetentionDays := trashRetentionDays,
      folderPattern := none, ruleId := some ruleId,
      skipTrash := false, active := true }

/-- The bootstrap `default-junk` policy from
`create_default_folder_policies` (`models.py` lines 293-300). -/
def defaultJunkPolicy : RetentionPolicy :=
  { id := "default-junk", name := "Junk Email Cleanup",
    description := "Move junk emails to trash after 7 days",
    retentionDays := 7, trashRetentionDays := 7,
    folderPattern := some "junk", ruleId := none,
    skipTrash := false, active := true }

/-! ## §C5 — rule persistence and account scoping

From `src/src/rules.py` (`EmailRule`, `RulesEngine.save_rules`,
`RulesEngine.load_rules`, `load_active_rules_for_account`).  Condition and
action records are carried with their persisted string tags, which both
directions map through unchanged.
-/

/-- A rule condition record (persisted form; `type` is the enum tag
string such as `"sender_in_list"`). -/
structure RuleCondition where
  type : String
  value : String
  caseSensitive : Bool
deriving DecidableEq, Repr

/-- A rule action record (persisted form). -/
structure RuleAction where
  type : String
  target : String
  retentionDays : Option Int
  trashRetentionDays : Option Int
  skipTrash : Bool
deriving DecidableEq, Repr

/-- The in-memory `EmailRule` dataclass (`rules.py` lines 142-155);
`accountEmail` defaults to `""`. -/
structure EmailRule where
  id : String
  name : String
  description : String
  conditions : List RuleCondition
  actions : List RuleAction
  accountEmail : String
  conditionLogic : String
  active : Bool
  priority : Int
  createdAt : String
  updatedAt : String
deriving DecidableEq, Repr

/-- One persisted object of the `rules.json` array, as
`RulesEngine.save_rules` (`rules.py` lines 359-399) writes it:
`asdict(rule)` serialises every dataclass field, `account_email`
included. -/
structure RuleJson where
  id : String
  name : String
  description : String
  conditions : List RuleCondition
  actions : List RuleAction
  accountEmail : String
  conditionLogic : String
  active : Bool
  priority : Int
  createdAt : String
  updatedAt : String
deriving DecidableEq, Repr

/-- The `save_rules` on one rule: the `asdict` image. -/
def saveRule (r : EmailRule) : RuleJson :=
  { id := r.id, name := r.name, description := r.description,
    conditions := r.conditions, actions := r.actions,
    accountEmail := r.accountEmail, conditionLogic := r.conditionLogic,
    active := r.active, priority := r.priority,
    createdAt := r.createdAt, updatedAt := r.updatedAt }

/-- The `RulesEngine.load_rules` on one persisted record (`rules.py` lines
306-357): the `EmailRule(...)` call passes `id`, `name`, `description`,
`conditions`, `actions`, `condition_logic`, `active`, `priority`,
`created_at` and `updated_at` — and does not pass `account_email`, so the
dataclass default `""` applies to every loaded rule. -/
def loadRule (r : RuleJson) : EmailRule :=
  { id := r.id, name := r.name, description := r.description,
    conditions := r.conditions, actions := r.actions,
    accountEmail := "",
    conditionLogic := r.conditionLogic, active := r.active,
    priority := r.priority, createdAt := r.createdAt, updatedAt := r.updatedAt }

/-- Stable insertion sort by ascending priority: `get_all_rules`'s
`sorted(self.rules, key=lambda r: r.priority)`. -/
def insertByPriority (r : EmailRule) : List EmailRule → List EmailRule
  | [] => [r]
  | x :: xs => if x.priority ≤ r.priority then x :: insertByPriority r xs else r :: x :: xs

/-- The `RulesEngine.get_all_rules` (`rules.py` lines 429-431). -/
def getAllRules (rules : List EmailRule) : List EmailRule :=
  rules.foldl (fun acc r => insertByPriority r acc) []

/-- The `load_active_rules_for_account` (`rules.py` lines 746-782): reload
`rules.json` through `RulesEngine` (hence through `load_rules`), then keep
active rules whose `account_email` equals this account or is empty. -/
def loadActiveRulesForAccount (accountEmail : String) (file : List RuleJson) :
    List EmailRule :=
  (getAllRules (file.map loadRule)).filter
    (fun rule => rule.active ∧ (rule.accountEmail = accountEmail ∨ rule.accountEmail = ""))

/-! ## §C6 — sender-list files

From `src/src/functions.py` (`open_read`, `new_entries`).  A list file is
its character content.
-/

/-- The `open_read` (`functions.py` lines 88-102): read the whole file and
split on newline; a trailing newline yields a final empty entry. -/
def openRead (content : List Char) : List (List Char) :=
  pySplitChar '\n' content

/-- The `new_entries` (`functions.py` lines 125-139): open in append mode and
write each entry followed by a newline — no duplicate check. -/
def newEntries (content : List Char) (entries : List (List Char)) : List Char :=
  content ++ (entries.map (fun e => e ++ ['\n'])).flatten

/-! ## §C7 — sender matching against lists

From `src/src/process_inbox.py` line 129 (exact membership of the raw
sender in the whitelist) and `src/src/rules.py` lines 90-109 (the
`SENDER_IN_LIST` branch of `RuleCondition.matches`).
-/

/-- The classification membership test `process_inbox` performs:
`item.from_ in whitelist` — plain, case-sensitive string membership. -/
def inboxListMember (sender : String) (lst : List String) : Bool :=
  lst.contains sender

/-- The address extraction of the `SENDER_IN_LIST` branch: take the part
between `<` and `>` when both occur, else the whole sender; strip
whitespace. -/
def extractSenderEmail (sender : List Char) : List Char :=
  if sender.contains '<' ∧ sender.contains '>' then
    pyStrip (((pySplitChar '>' ((pySplitChar '<' sender).getD 1 [])).headD []))
  else
    pyStrip sender

/-- The `SENDER_IN_LIST` branch of `RuleCondition.matches` (`rules.py`
lines 90-109): extract the address, lower-case it, and test membership in
the lower-cased list entries. -/
def senderInListMatches (sender : String) (entries : List String) : Bool :=
  (entries.map (fun e => pyLower e.toList)).contains (pyLower (extractSenderEmail sender.toList))

/-! ## §C1 — the retention audit log

From `src/retention/audit.py`.  `_setup_logger` (lines 28-43) attaches a
`logging.FileHandler` with the formatter
`'%(asctime)s [RETENTION_AUDIT] %(message)s'`, so each appended line is the
timestamp, the literal tag, and then the `json.dumps` of the entry.
`get_audit_entries` (lines 150-208) re-reads the file line by line with
`json.loads(line.strip())`, skipping lines that fail to parse.  The JSON
values and the `json.dumps` / `json.loads` pair are embedded below;
numbers keep their lexeme (no field of an audit entry is numerically
compared), and the `\uXXXX` string escape, which the writer never emits, is
not recognised.
-/

/-- An opening curly brace character, written by code point. -/
def lbraceChar : Char := Char.ofNat 123

/-- A closing curly brace character. -/
def rbraceChar : Char := Char.ofNat 125

/-- Embedded JSON values. -/
inductive Json where
  | null
  | bool (b : Bool)
  | num (lexeme : List Char)
  | str (s : List Char)
  | arr (xs : List Json)
  | obj (fields : List (List Char × Json))

/-- JSON string escaping as `json.dumps` performs it for the characters the
audit entries can contain. -/
def jsonEscapeChar (c : Char) : List Char :=
  if c = '"' then ['\\', '"']
  else if c = '\\' then ['\\', '\\']
  else if c = '\n' then ['\\', 'n']
  else if c = '\t' then ['\\', 't']
  else if c = '\r' then ['\\', 'r']
  else [c]

/-- Serialisation of a JSON string literal. -/
def jsonDumpsStr (s : List Char) : List Char :=
  '"' :: (s.map jsonEscapeChar).flatten ++ ['"']

/-- Comma-plus-space interleaving of serialised items (the default
`json.dumps` item separator). -/
def joinCommaSpace : List (List Char) → List Char
  | [] => []
  | [x] => x
  | x :: y :: rest => x ++ ',' :: ' ' :: joinCommaSpace (y :: rest)

/-- Python `json.dumps` with its default separators `', '` and `': '`.
`fuel` bounds the nesting depth (structural recursion over nested lists);
`jsonDumps` below applies it with fuel far beyond any audit entry's
depth. -/
def jsonDumpsF : Nat → Json → List Char
  | 0, _ => []
  | fuel + 1, j =>
    match j with
    | .null => "null".toList
    | .bool true => "true".toList
    | .bool false => "false".toList
    | .num lex => lex
    | .str s => jsonDumpsStr s
    | .arr xs => '[' :: joinCommaSpace (xs.map (jsonDumpsF fuel)) ++ [']']
    | .obj fs =>
      lbraceChar ::
        joinCommaSpace (fs.map (fun kv => jsonDumpsStr kv.1 ++ ':' :: ' ' :: jsonDumpsF fuel kv.2))
        ++ [rbraceChar]

/-- Python `json.dumps` on values of bounded depth. -/
def jsonDumps (j : Json) : List Char :=
  jsonDumpsF 32 j

/-- Skip JSON whitespace. -/
def skipWs : List Char → List Char
  | c :: rest =>
    if c = ' ' ∨ c = '\t' ∨ c = '\n' ∨ c = '\r' then skipWs rest else c :: rest
  | [] => []

/-- Parse the remainder of a JSON string literal (after the opening
quote), returning its contents and the input after the closing quote. -/
def parseStringLit : List Char → Option (List Char × List Char)
  | [] => none
  | c :: rest =>
    if c = '"' then some ([], rest)
    else if c = '\\' then
      match rest with
      | [] => none
      | e :: rest2 =>
        let decoded : Option Char :=
          if e = '"' then some '"'
          else if e = '\\' then some '\\'
          else if e = '/' then some '/'
          else if e = 'n' then some '\n'
          else if e = 't' then some '\t'
          else if e = 'r' then some '\r'
          else if e = 'b' then some (Char.ofNat 8)
          else if e = 'f' then some (Char.ofNat 12)
          else none
        match decoded with
        | none => none
        | some ch => (parseStringLit rest2).map (fun p => (ch :: p.1, p.2))
    else (parseStringLit rest).map (fun p => (c :: p.1, p.2))

/-- Parse a JSON number token (`-?(0|[1-9][0-9]*)(.[0-9]+)?([eE][+-]?[0-9]+)?`),
keeping the lexeme. -/
def parseNumber (input : List Char) : Option (List Char × List Char) :=
  let (neg, r0) : List Char × List Char :=
    match input with
    | '-' :: r => (['-'], r)
    | _ => ([], input)
  let (ds, r1) : List Char × List Char :=
    match r0 with
    | '0' :: r => (['0'], r)
    | _ => (r0.takeWhile Char.isDigit, r0.dropWhile Char.isDigit)
  if ds.isEmpty then none
  else
    let afterFrac : Option (List Char × List Char) :=
      match r1 with
      | '.' :: r =>
        let fs := r.takeWhile Char.isDigit
        if fs.isEmpty then none else some (neg ++ ds ++ '.' :: fs, r.dropWhile Char.isDigit)
      | _ => some (neg ++ ds, r1)
    match afterFrac with
    | none => none
    | some (lex, r2) =>
      match r2 with
      | e :: r3 =>
        if e = 'e' ∨ e = 'E' then
          let (sgn, r4) : List Char × List Char :=
            match r3 with
            | '+' :: r => (['+'], r)
            | '-' :: r => (['-'], r)
            | _ => ([], r3)
          let es := r4.takeWhile Char.isDigit
          if es.isEmpty then none
          else some (lex ++ e :: sgn ++ es, r4.dropWhile Char.isDigit)
        else some (lex, r2)
      | [] => some (lex, r2)

/-- The five positions of the recursive-descent `json.loads` core: a
value, an object body (after the opening brace), the field list of an
object, an array body (after the opening bracket), and the element list of
an array. -/
inductive JsonParseMode where
  | value
  | objBody
  | objFields
  | arrBody
  | arrElems
deriving Repr

/-- Intermediate output of the parser positions. -/
inductive JsonParseOut where
  | val (j : Json)
  | fields (fs : List (List Char × Json))
  | elems (xs : List Json)

/-- Recursive-descent core of Python `json.loads`: parse the syntactic
class `mode` at the head of the input, returning the result with the
unconsumed input.  `fuel` pays for every descent step; `pyJsonLoads`
supplies enough for any input of the given length. -/
def parseF : Nat → JsonParseMode → List Char → Option (JsonParseOut × List Char)
  | 0, _, _ => none
  | fuel + 1, .value, input =>
    (match skipWs input with
     | [] => none
     | c :: rest =>
       if c = '"' then (parseStringLit rest).map (fun p => (JsonParseOut.val (Json.str p.1), p.2))
       else if c = lbraceChar then parseF fuel .objBody rest
       else if c = '[' then parseF fuel .arrBody rest
       else if c = 't' then
         match rest with
         | 'r' :: 'u' :: 'e' :: r => some (JsonParseOut.val (Json.bool true), r)
         | _ => none
       else if c = 'f' then
         match rest with
         | 'a' :: 'l' :: 's' :: 'e' :: r => some (JsonParseOut.val (Json.bool false), r)
         | _ => none
       else if c = 'n' then
         match rest with
         | 'u' :: 'l' :: 'l' :: r => some (JsonParseOut.val Json.null, r)
         | _ => none
       else if c = '-' ∨ c.isDigit then
         (parseNumber (c :: rest)).map (fun p => (JsonParseOut.val (Json.num p.1), p.2))
       else none)
  | fuel + 1, .objBody, input =>
    (match skipWs input with
     | c :: rest =>
       if c = rbraceChar then some (JsonParseOut.val (Json.obj []), rest)
       else
         match parseF fuel .objFields (c :: rest) with
         | some (JsonParseOut.fields fs, r) => some (JsonParseOut.val (Json.obj fs), r)
         | _ => none
     | [] => none)
  | fuel + 1, .objFields, input =>
    (match skipWs input with
     | '"' :: r =>
       match parseStringLit r with
       | none => none
       | some (k, r1) =>
         match skipWs r1 with
         | ':' :: r2 =>
           match parseF fuel .value r2 with
           | some (JsonParseOut.val v, r3) =>
             (match skipWs r3 with
              | ',' :: r4 =>
                match parseF fuel .objFields r4 with
                | some (JsonParseOut.fields fs, r5) =>
                  some (JsonParseOut.fields ((k, v) :: fs), r5)
                | _ => none
              | c :: r4 =>
                if c = rbraceChar then some (JsonParseOut.fields [(k, v)], r4) else none
              | [] => none)
           | _ => none
         | _ => none
     | _ => none)
  | fuel + 1, .arrBody, input =>
    (match skipWs input with
     | ']' :: rest => some (JsonParseOut.val (Json.arr []), rest)
     | other =>
       match parseF fuel .arrElems other with
       | some (JsonParseOut.elems xs, r) => some (JsonParseOut.val (Json.arr xs), r)
       | _ => none)
  | fuel + 1, .arrElems, input =>
    (match parseF fuel .value input with
     | some (JsonParseOut.val v, r) =>
       (match skipWs r with
        | ',' :: r2 =>
          match parseF fuel .arrElems r2 with
          | some (JsonParseOut.elems xs, r3) => some (JsonParseOut.elems (v :: xs), r3)
          | _ => none
        | ']' :: r2 => some (JsonParseOut.elems [v], r2)
        | _ => none)
     | _ => none)

/-- Python `json.loads`: one complete JSON document, nothing but
whitespace after it (otherwise the `Extra data` error, here `none`). -/
def pyJsonLoads (s : List Char) : Option Json :=
  match parseF (4 * s.length + 4) .value s with
  | some (JsonParseOut.val v, rest) => if (skipWs rest).isEmpty then some v else none
  | _ => none

/-- The line the audit logger's handler writes for one `log(...)` call:
`'%(asctime)s [RETENTION_AUDIT] %(message)s'` where the message is the
`json.dumps` of the entry (`audit.py` lines 28-43 and 82). -/
def retentionAuditFormat (asctime msg : String) : String :=
  asctime ++ " [RETENTION_AUDIT] " ++ msg

/-- Conversion of an optional string to its JSON value (`None` → `null`). -/
def optJson : Option (List Char) → Json
  | none => Json.null
  | some s => Json.str s

/-- The dictionary `log_trash_operation` builds (`audit.py` lines
109-135), in insertion order. -/
def logTrashOperationEntry (auditId timestamp operation accountEmail folder : List Char)
    (messageUids : List (List Char)) (success : Bool)
    (policyId errorMessage : Option (List Char)) : Json :=
  Json.obj
    [ ("audit_id".toList, Json.str auditId),
      ("timestamp".toList, Json.str timestamp),
      ("operation_type".toList, Json.str "trash_operation".toList),
      ("trash_operation".toList, Json.str operation),
      ("account_email".toList, Json.str accountEmail),
      ("folder".toList, Json.str folder),
      ("message_count".toList, Json.num (toString messageUids.length).toList),
      ("message_uids".toList, Json.arr ((messageUids.take 10).map Json.str)),
      ("success".toList, Json.bool success),
      ("policy_id".toList, optJson policyId),
      ("error_message".toList, optJson errorMessage) ]

/-- Lexicographic order on character lists; ISO-8601 timestamps of the
fixed `datetime.isoformat()` shape compare this way exactly as the parsed
datetimes do. -/
def lexLtChars : List Char → List Char → Bool
  | [], [] => false
  | [], _ :: _ => true
  | _ :: _, [] => false
  | a :: as, b :: bs => if a < b then true else if a = b then lexLtChars as bs else false

/-- The embedded `entry.get(key)` on a parsed JSON object.  Audit entries
never repeat a key, so the first binding is the binding. -/
def jsonObjGet (j : Json) (key : List Char) : Option Json :=
  match j with
  | .obj fs => (fs.find? (fun f => f.1 == key)).map (fun f => f.2)
  | _ => none

/-- The filter block of `get_audit_entries` (`audit.py` lines 177-192) for
one parsed entry: date filters compare the `timestamp` field (a missing or
non-string field is the `KeyError` path, which the enclosing `except`
turns into a skip), `policy_id` and `operation_type` compare for
equality.  `none` stands for an absent (or falsy) argument, which disables
the corresponding filter. -/
def entryPassesFilters (entry : Json)
    (startDate endDate policyId operationType : Option (List Char)) : Bool :=
  (match startDate with
   | none => true
   | some sd =>
     match jsonObjGet entry "timestamp".toList with
     | some (Json.str t) => !(lexLtChars t sd)
     | _ => false) &&
  (match endDate with
   | none => true
   | some ed =>
     match jsonObjGet entry "timestamp".toList with
     | some (Json.str t) => !(lexLtChars ed t)
     | _ => false) &&
  (match policyId with
   | none => true
   | some pid =>
     match jsonObjGet entry "policy_id".toList with
     | some (Json.str p) => p == pid
     | _ => false) &&
  (match operationType with
   | none => true
   | some ot =>
     match jsonObjGet entry "operation_type".toList with
     | some (Json.str t) => t == ot
     | _ => false)

/-- The line loop of `get_audit_entries` (`audit.py` lines 169-201):
`json.loads(line.strip())` per line, malformed lines skipped, filters
applied, early break once `limit` entries are collected. -/
def getAuditEntriesLoop
    (startDate endDate policyId operationType : Option (List Char))
    (limit : Nat) (acc : List Json) : List String → List Json
  | [] => acc
  | line :: rest =>
    match pyJsonLoads (pyStrip line.toList) with
    | none => getAuditEntriesLoop startDate endDate policyId operationType limit acc rest
    | some entry =>
      if entryPassesFilters entry startDate endDate policyId operationType then
        let acc2 := acc ++ [entry]
        if limit ≤ acc2.length then acc2
        else getAuditEntriesLoop startDate endDate policyId operationType limit acc2 rest
      else getAuditEntriesLoop startDate endDate policyId operationType limit acc rest

/-- The `RetentionAuditLogger.get_audit_entries` (`audit.py` lines 150-208):
scan the file's lines, then return the collected entries newest first. -/
def getAuditEntries (lines : List String)
    (startDate endDate policyId operationType : Option (List Char))
    (limit : Nat) : List Json :=
  (getAuditEntriesLoop startDate endDate policyId operationType limit [] lines).reverse

/-- A first concrete trash-operation audit entry. -/
def c1Entry1 : Json :=
  logTrashOperationEntry "trash_1748772000".toList "2025-06-01T12:00:00".toList
    "move_to_trash".toList "user@example.com".toList "INBOX.Junk".toList
    ["101".toList] true none none

/-- A second concrete trash-operation audit entry, logged later. -/
def c1Entry2 : Json :=
  logTrashOperationEntry "trash_1748772005".toList "2025-06-01T12:00:05".toList
    "move_to_trash".toList "user@example.com".toList "INBOX.Junk".toList
    ["102".toList] true none none

/-- The audit log file after the two `log_trash_operation` calls: one
formatter-prefixed line per call. -/
def c1AuditFile : List String :=
  [retentionAuditFormat "2025-06-01 12:00:00" (String.mk (jsonDumps c1Entry1)),
   retentionAuditFormat "2025-06-01 12:00:05" (String.mk (jsonDumps c1Entry2))]

end MailRulez

namespace MailRulez

/-! ### C1 theorems -/

set_option maxRecDepth 100000 in
/-- C1: the audit round trip is broken.  The logger writes each entry
behind the `'%(asctime)s [RETENTION_AUDIT] '` prefix, so the line is not a
JSON object — `json.loads` on it fails (first conjunct) although the JSON
message body alone would parse back exactly (second conjunct) — and a
subsequent unfiltered `get_audit_entries` call over the file written by the
two `log` calls skips both lines and returns the empty list (third
conjunct) instead of the two entries in order. -/
theorem C1_audit_query_returns_nothing :
    pyJsonLoads (pyStrip (retentionAuditFormat "2025-06-01 12:00:00"
        (String.mk (jsonDumps c1Entry1))).toList) = none ∧
    pyJsonLoads (jsonDumps c1Entry1) = some c1Entry1 ∧
    getAuditEntries c1AuditFile none none none none 100 = [] := by
  refine ⟨rfl, rfl, rfl⟩

/-! ### C2 theorems -/

/-- C2: stage-1 cap enforcement is dead code.  Whatever headers the folder
holds, `find_emails_older_than` compares each message's `datetime.date`
against a `datetime.datetime` cutoff, the `TypeError` is swallowed into an
empty selection, and a non-dry-run stage-1 execution reports
`emails_affected = 0` and moves nothing — even when, as in the second
conjunct, the messages genuinely older than `retention_days` outnumber
`max_emails_per_operation` (three candidates against a cap of two), where
the claim demands exactly `max_emails_per_operation` moves. -/
theorem C2_stage1_cap_never_applies :
    (∀ (raw : List (String × Int)) (retentionDays : Int) (maxEmails : Nat) (nowSecs : Int),
      executeRetentionStage1 (fetchClass raw) retentionDays maxEmails nowSecs false
        = { success := true, emailsProcessed := 0, emailsAffected := 0, movedUids := [] }) ∧
    ((specSelectedUids [("1", 0), ("2", 0), ("3", 0)] (100 * 86400) 30).length = 3 ∧
      3 > 2 ∧
      (executeRetentionStage1 (fetchClass [("1", 0), ("2", 0), ("3", 0)]) 30 2
        (100 * 86400) false).emailsAffected = 0) := by
  constructor
  · intro raw retentionDays maxEmails nowSecs
    cases raw with
    | nil => rfl
    | cons x rest => rfl
  · exact ⟨by decide, by decide, by decide⟩

/-! ### C3 theorems -/

/-- C3: `update_policy` breaks the exclusivity invariant the dataclass
constructor enforces.  Updating the persisted `default-junk` folder policy
with `rule_id="some-rule"` is accepted and saved with *both*
`folder_pattern` and `rule_id` set, although re-running the constructor's
own validation on the same result would raise. -/
theorem C3_update_policy_breaks_exclusivity :
    (updatePolicy defaultJunkPolicy [PolicyFieldUpdate.setRuleId (some "some-rule")] 1).map
        (fun q => (optStrTruthy q.folderPattern, optStrTruthy q.ruleId, policyExclusive q))
      = Except.ok (true, true, false) ∧
    postInitValidate
        { defaultJunkPolicy with ruleId := some "some-rule" }
      = Except.error "Policy cannot specify both folder_pattern and rule_id" := by
  exact ⟨by decide, by decide⟩

/-! ### C5 theorems -/

/-- C5: account scoping is lost across persistence.  A saved active rule
scoped to `b@x.com` comes back from `load_rules` with `account_email = ""`
(the constructor call in `load_rules` omits the field), so
`load_active_rules_for_account("a@x.com")` returns it even though the
persisted record names a different account. -/
theorem C5_account_scope_lost_on_load :
    (loadActiveRulesForAccount "a@x.com"
        [saveRule { id := "r1", name := "B rule", description := "",
                    conditions := [], actions := [],
                    accountEmail := "b@x.com", conditionLogic := "AND",
                    active := true, priority := 100,
                    createdAt := "", updatedAt := "" }]).length = 1 ∧
    (loadRule (saveRule { id := "r1", name := "B rule", description := "",
                          conditions := [], actions := [],
                          accountEmail := "b@x.com", conditionLogic := "AND",
                          active := true, priority := 100,
                          createdAt := "", updatedAt := "" })).accountEmail = "" ∧
    (saveRule { id := "r1", name := "B rule", description := "",
                conditions := [], actions := [],
                accountEmail := "b@x.com", conditionLogic := "AND",
                active := true, priority := 100,
                createdAt := "", updatedAt := "" }).accountEmail = "b@x.com" := by
  exact ⟨by decide, by decide, by decide⟩

/-! ### C6 theorems -/

/-- C6 counterexample: adding `a@x.com` to a list that already contains it
leaves the address in the subsequent read twice, not once — `new_entries`
appends without any duplicate check. -/
theorem C6_counterexample_duplicate_add :
    (openRead (newEntries "a@x.com\n".toList ["a@x.com".toList])).count "a@x.com".toList
      = 2 := by
  decide

/-- A Python `split` never returns an empty list of chunks. -/
theorem pySplitChar_ne_nil (sep : Char) (xs : List Char) :
    pySplitChar sep xs ≠ [] := by
  induction xs with
  | nil => simp [pySplitChar]
  | cons d rest ih =>
    by_cases h : d = sep
    · simp [pySplitChar, h]
    · simp only [pySplitChar, if_neg h]
      cases hs : pySplitChar sep rest with
      | nil => simp
      | cons a b => simp

/-- Splitting a separator-free chunk followed by the separator yields that
chunk and a final empty chunk. -/
theorem pySplitChar_chunk_sep (sep : Char) (xs : List Char) (h : sep ∉ xs) :
    pySplitChar sep (xs ++ [sep]) = [xs, []] := by
  induction xs with
  | nil => simp [pySplitChar]
  | cons d rest ih =>
    have hd : ¬ d = sep := fun hh => h (hh ▸ List.mem_cons_self d rest)
    have hrest : sep ∉ rest := fun hh => h (List.mem_cons_of_mem d hh)
    simp only [List.cons_append, pySplitChar, List.append_eq, if_neg hd, ih hrest]

/-- A split of a string that contains the separator has at least two
chunks. -/
theorem pySplitChar_sep_two_le (sep : Char) (xs : List Char) :
    2 ≤ (pySplitChar sep (xs ++ [sep])).length := by
  induction xs with
  | nil => simp [pySplitChar]
  | cons d rest ih =>
    by_cases h : d = sep
    · have h1 : (pySplitChar sep (rest ++ [sep])).length ≥ 1 :=
        List.length_pos.mpr (pySplitChar_ne_nil sep (rest ++ [sep]))
      simp only [List.cons_append, pySplitChar, List.append_eq, if_pos h,
        List.length_cons]
      omega
    · cases hs : pySplitChar sep (rest ++ [sep]) with
      | nil => exact absurd hs (pySplitChar_ne_nil sep (rest ++ [sep]))
      | cons a b =>
        have h2 := ih
        rw [hs] at h2
        simp only [List.cons_append, pySplitChar, List.append_eq, if_neg h, hs,
          List.length_cons] at h2 ⊢
        omega

/-- Decomposition of a split at an explicit separator occurrence: the
chunks before the separator (the split of `cs ++ [sep]` without its final
empty chunk) followed by the chunks of the remainder. -/
theorem pySplitChar_append_cons (sep : Char) (cs zs : List Char) :
    pySplitChar sep (cs ++ sep :: zs)
      = (pySplitChar sep (cs ++ [sep])).dropLast ++ pySplitChar sep zs := by
  induction cs with
  | nil => simp [pySplitChar]
  | cons d cs' ih =>
    by_cases h : d = sep
    · cases hs : pySplitChar sep (cs' ++ [sep]) with
      | nil => exact absurd hs (pySplitChar_ne_nil sep (cs' ++ [sep]))
      | cons x t =>
        rw [hs] at ih
        simp only [List.cons_append, pySplitChar, List.append_eq, if_pos h, ih, hs,
          List.dropLast_cons_of_ne_nil (List.cons_ne_nil x t), List.cons_append]
    · cases hs : pySplitChar sep (cs' ++ [sep]) with
      | nil => exact absurd hs (pySplitChar_ne_nil sep (cs' ++ [sep]))
      | cons x t =>
        have htwo := pySplitChar_sep_two_le sep cs'
        rw [hs] at htwo
        have ht : t ≠ [] := by
          intro hh
          rw [hh] at htwo
          simp at htwo
        rw [hs] at ih
        rw [List.dropLast_cons_of_ne_nil ht] at ih
        simp only [List.cons_append, pySplitChar, List.append_eq, if_neg h, ih, hs,
          List.dropLast_cons_of_ne_nil ht, List.cons_append]

/-- A newline-terminated file splits into its chunks with a final empty
chunk. -/
theorem pySplitChar_trailing_sep (sep : Char) (cs : List Char) :
    pySplitChar sep (cs ++ [sep])
      = (pySplitChar sep (cs ++ [sep])).dropLast ++ [[]] := by
  have h := pySplitChar_append_cons sep cs []
  simpa [pySplitChar] using h

/-- C6 as amended: `new_entries` performs no duplicate check, so an add of
`addr` to a well-formed list file (empty or newline-terminated) increases
the number of occurrences of `addr` in the subsequent `open_read` by
exactly one — an absent address appears exactly once afterwards, an address
already present `k` times appears `k + 1` times. -/
theorem C6_add_increments_count (content addr : List Char)
    (hnl : '\n' ∉ addr) (hne : addr ≠ [])
    (hfile : content = [] ∨ ∃ cs, content = cs ++ ['\n']) :
    (openRead (newEntries content [addr])).count addr
      = (openRead content).count addr + 1 := by
  unfold openRead newEntries
  simp only [List.map_cons, List.map_nil, List.flatten_cons, List.flatten_nil,
    List.append_nil]
  rcases hfile with h | ⟨cs, h⟩
  · subst h
    rw [List.nil_append, pySplitChar_chunk_sep '\n' addr hnl]
    simp [pySplitChar, List.count_cons, List.count_nil, hne]
  · subst h
    have hshape : cs ++ ['\n'] ++ (addr ++ ['\n']) = cs ++ '\n' :: (addr ++ ['\n']) := by
      simp
    rw [hshape, pySplitChar_append_cons, pySplitChar_chunk_sep '\n' addr hnl,
      List.count_append]
    have hcount : (pySplitChar '\n' (cs ++ ['\n'])).count addr
        = ((pySplitChar '\n' (cs ++ ['\n'])).dropLast).count addr
          + ([([] : List Char)] : List (List Char)).count addr := by
      conv_lhs => rw [pySplitChar_trailing_sep '\n' cs]
      rw [List.count_append]
    rw [hcount]
    have h1 : ([addr, ([] : List Char)] : List (List Char)).count addr = 1 := by
      simp [List.count_cons, List.count_nil, hne]
    have h2 : ([([] : List Char)] : List (List Char)).count addr = 0 := by
      simp [List.count_cons, List.count_nil, hne]
    rw [h1, h2]

/-- Witness for C6's amended statement: adding a fresh address to a
one-entry file raises its count from 0 to 1. -/
theorem C6_add_increments_count_witness :
    (openRead (newEntries "b@x.com\n".toList ["a@x.com".toList])).count "a@x.com".toList
      = (openRead "b@x.com\n".toList).count "a@x.com".toList + 1 :=
  C6_add_increments_count "b@x.com\n".toList "a@x.com".toList
    (by decide) (by decide) (Or.inr ⟨"b@x.com".toList, by decide⟩)

/-! ### C7 theorems -/

/-- C7 counterexample: sender matching is *not* case-insensitive
everywhere.  With the whitelist entry `Alice@X.com` and the sender
`alice@x.com`, the inbox classification membership of `process_inbox` does
not match, while the `sender_in_list` rule condition does. -/
theorem C7_counterexample_inbox_case_sensitive :
    inboxListMember "alice@x.com" ["Alice@X.com"] = false ∧
    senderInListMatches "alice@x.com" ["Alice@X.com"] = true := by
  exact ⟨by decide, by decide⟩

/-- C7 as amended: the `sender_in_list` rule condition matches
case-insensitively — any plain sender (no angle brackets, no surrounding
whitespace) that agrees with a list entry up to letter case matches — while
the built-in-list classification of `process_inbox` is exact, case-sensitive
membership, as the counterexample shows. -/
theorem C7_rule_condition_case_insensitive (sender entry : String)
    (rest : List String)
    (hangle : sender.toList.contains '<' = false)
    (hstrip : pyStrip sender.toList = sender.toList)
    (hcase : pyLower sender.toList = pyLower entry.toList) :
    senderInListMatches sender (entry :: rest) = true := by
  unfold senderInListMatches extractSenderEmail
  rw [if_neg (fun h => by rw [hangle] at h; exact Bool.false_ne_true h.1)]
  rw [hstrip]
  simp only [List.map_cons, List.contains_cons, ← hcase, beq_self_eq_true,
    Bool.true_or]

/-- Witness for C7's amended statement at the counterexample's input. -/
theorem C7_rule_condition_case_insensitive_witness :
    senderInListMatches "alice@x.com" ("Alice@X.com" :: []) = true :=
  C7_rule_condition_case_insensitive "alice@x.com" "Alice@X.com" []
    (by decide) (by decide) (by decide)

/-! ### C4 theorems -/

/-- C4 counterexample: for the Gmail account `foo@gmail.com` moving uids
55,56 from INBOX to INBOX/Archive, the claim predicts one
`UID STORE -X-GM-LABELS` per uid and `labels_removed = 2`; the code skips
label removal for the source `'INBOX'` entirely, reports 0, and issues no
store command. -/
theorem C4_counterexample_inbox_store_skipped :
    inboxMoveDispatch MoveOutcome.ok "foo@gmail.com" ["55", "56"] "INBOX/Archive" "INBOX"
      ≠ Except.ok
          (some { moved := 2, labelRemoved := 2, errors := [] },
           [ImapCmd.move ["55", "56"] "INBOX/Archive",
            ImapCmd.storeRemoveGmailLabel "55" "INBOX",
            ImapCmd.storeRemoveGmailLabel "56" "INBOX"]) := by
  decide

/-- C4 as amended: for the Gmail account the move from INBOX issues only
the MOVE — the synthetic INBOX source label is exempt from removal — and
returns `{moved: 2, label_removed: 0, errors: []}` (the key is
`label_removed`); the same inputs for a non-Gmail account produce only the
MOVE and no Gmail result dictionary. -/
theorem C4_gmail_inbox_move_amended :
    inboxMoveDispatch MoveOutcome.ok "foo@gmail.com" ["55", "56"] "INBOX/Archive" "INBOX"
      = Except.ok
          (some { moved := 2, labelRemoved := 0, errors := [] },
           [ImapCmd.move ["55", "56"] "INBOX/Archive"]) ∧
    inboxMoveDispatch MoveOutcome.ok "foo@example.com" ["55", "56"] "INBOX/Archive" "INBOX"
      = Except.ok (none, [ImapCmd.move ["55", "56"] "INBOX/Archive"]) := by
  exact ⟨by decide, by decide⟩

/-! ### C9 theorems -/

/-- C9: for a Gmail account, a failure of the underlying IMAP move inside
`gmail_aware_move` is caught there and returned as an (always truthy)
result dictionary with `moved = 0` and the error text in `errors`;
`move_to_trash` then reports `len(message_uids)` as the moved count and
logs a success audit entry — it neither raises `TrashOperationError` nor
records a failure. -/
theorem C9_gmail_trash_move_failure_reported_as_success
    (email : String) (accountTrash : Option String)
    (availableFolders : Option (List String)) (uids : List String)
    (sourceFolder msg : String)
    (hg : isGmailAccount email = true) (hne : uids.isEmpty = false) :
    (gmailAwareMove (MoveOutcome.err msg) uids
        (getTrashFolder accountTrash email availableFolders) (some sourceFolder)).1
      = { moved := 0, labelRemoved := 0,
          errors := ["Gmail move operation failed: " ++ msg] } ∧
    moveToTrash email accountTrash availableFolders uids sourceFolder
        (MoveOutcome.err msg)
      = Except.ok (uids.length,
          some { operation := "move_to_trash", accountEmail := email,
                 folder := sourceFolder, messageCount := uids.length,
                 success := true, errorMessage := none }) := by
  constructor
  · unfold gmailAwareMove
    rw [if_neg (by simp [hne])]
  · unfold moveToTrash
    rw [if_neg (by simp [hne]), if_pos hg]
    rfl

/-- Witness for C9: account `foo@gmail.com`, uids 1,2 moved out of
`INBOX.Junk` while the server rejects the move with "boom". -/
theorem C9_gmail_trash_move_failure_witness :
    (gmailAwareMove (MoveOutcome.err "boom") ["1", "2"]
        (getTrashFolder none "foo@gmail.com" none) (some "INBOX.Junk")).1
      = { moved := 0, labelRemoved := 0,
          errors := ["Gmail move operation failed: " ++ "boom"] } ∧
    moveToTrash "foo@gmail.com" none none ["1", "2"] "INBOX.Junk"
        (MoveOutcome.err "boom")
      = Except.ok (2,
          some { operation := "move_to_trash", accountEmail := "foo@gmail.com",
                 folder := "INBOX.Junk", messageCount := 2,
                 success := true, errorMessage := none }) :=
  C9_gmail_trash_move_failure_reported_as_success "foo@gmail.com" none none
    ["1", "2"] "INBOX.Junk" "boom" (by decide) (by decide)

/-! ### C8 theorems -/

/-- C8: for a processor in startup mode with a recorded mode start time,
`should_transition_to_maintenance` returns true iff all four criteria hold:
fewer than 50 pending emails, mode start at least 14 days in the past,
zero consecutive errors, and error rate `error_count / max(1,
emails_processed)` below 5%. -/
theorem C8_should_transition_iff (p : ProcessorState) (now t : Int)
    (hmode : p.mode = ProcessingMode.startup)
    (hmst : p.modeStartTime = some t) :
    shouldTransitionToMaintenance p now = true ↔
      (p.emailsPending < 50 ∧
       14 * 86400 ≤ now - t ∧
       p.consecutiveErrors = 0 ∧
       (p.errorCount : ℚ) / (max 1 p.emailsProcessed : ℚ) < 1/20) := by
  have hdiv : (14 ≤ Int.fdiv (now - t) 86400) ↔ 14 * 86400 ≤ now - t := by
    rw [Int.fdiv_eq_ediv _ (by norm_num)]
    exact Int.le_ediv_iff_mul_le (by norm_num)
  unfold shouldTransitionToMaintenance timedeltaDays
  rw [hmst, hmode]
  simp only [ne_eq, not_true_eq_false, if_false, Bool.and_eq_true,
    decide_eq_true_eq, beq_iff_eq, ge_iff_le, hdiv]
  tauto

/-- Witness for C8: a concrete processor 15 days into startup with 20
pending, 10 errors over 1000 processed and no consecutive errors is
eligible, as the theorem instantiates. -/
theorem C8_should_transition_iff_witness :
    shouldTransitionToMaintenance
      { mode := ProcessingMode.startup, state := ServiceState.runningStartup,
        emailsProcessed := 1000, emailsPending := 20, errorCount := 10,
        consecutiveErrors := 0, modeStartTime := some 0, avgProcessingTime := 0 }
      (15 * 86400) = true :=
  (C8_should_transition_iff
    { mode := ProcessingMode.startup, state := ServiceState.runningStartup,
      emailsProcessed := 1000, emailsPending := 20, errorCount := 10,
      consecutiveErrors := 0, modeStartTime := some 0, avgProcessingTime := 0 }
    (15 * 86400) 0 rfl rfl).mpr
    ⟨by norm_num, by norm_num, rfl, by norm_num⟩

/-! ### C10 theorems -/

/-- No `ServiceState.value` string equals the uppercase names the
aggregator compares against. -/
theorem serviceState_value_ne_upper (st : ServiceState) :
    st.value ≠ "RUNNING_STARTUP" ∧ st.value ≠ "RUNNING_MAINTENANCE" := by
  cases st <;> exact ⟨by decide, by decide⟩

/-- No `ProcessingMode.value` string equals `"STARTUP"`. -/
theorem processingMode_value_ne_upper (m : ProcessingMode) :
    m.value ≠ "STARTUP" := by
  cases m <;> decide

/-- C10: once initialized, whatever the processors' actual states and modes,
`get_aggregate_stats` reports `running_accounts = 0`,
`startup_mode_accounts = 0` and `maintenance_mode_accounts` equal to the
number of snapshots, because snapshots store the lowercase enum values while
the aggregation compares against the uppercase enum names. -/
theorem C10_aggregate_counts_constant (procs : List ProcessorState) (total : Nat) :
    (getAggregateStats true total (procs.map getStatsSnapshot)).runningAccounts = 0 ∧
    (getAggregateStats true total (procs.map getStatsSnapshot)).startupModeAccounts = 0 ∧
    (getAggregateStats true total (procs.map getStatsSnapshot)).maintenanceModeAccounts
      = procs.length := by
  have key : ∀ (l : List ProcessorState),
      (aggregateLoop (l.map getStatsSnapshot)).2.2.2.1 = 0 ∧
      (aggregateLoop (l.map getStatsSnapshot)).2.2.2.2.1 = 0 ∧
      (aggregateLoop (l.map getStatsSnapshot)).2.2.2.2.2 = l.length := by
    intro l
    induction l with
    | nil => exact ⟨rfl, rfl, rfl⟩
    | cons p rest ih =>
      have hst := serviceState_value_ne_upper p.state
      have hm := processingMode_value_ne_upper p.mode
      simp only [List.map_cons, aggregateLoop, getStatsSnapshot, List.length_cons]
      rw [if_neg (fun h => h.elim hst.1 hst.2), if_neg hm, if_neg hm]
      refine ⟨by rw [ih.1], by rw [ih.2.1], by rw [ih.2.2, Nat.add_comm]⟩
  simpa only [getAggregateStats, Bool.not_true, if_false, ite_false] using key procs

end MailRulez
